import Mathlib

/-!
Shallow embedding of the `generateImage` controller of the Artify repository
(`imageController`-style Express handler calling the Replicate API through the
Hugging Face router), together with proofs of the specification claims.

The JavaScript source is embedded as pure Lean functions over an explicit
environment `Env` that supplies the results of the external effects
(database lookup, upstream POST, poll GETs, secondary image fetch, the JSON
parser and UTF-8 decoding of byte buffers).  The handler itself is the
function `generateImage : Env → Request → HttpResponse × Effects`; the
`Effects` component records the externally observable side effects (whether
the upstream POST was issued, how many poll attempts were consumed, and the
list of balances persisted via `user.save()`).
-/

set_option maxRecDepth 10000

namespace Artify

/-- JavaScript JSON values, as produced by `JSON.parse` / consumed by the
controller.  Numbers are modelled as integers (the controller never does
arithmetic on JSON numbers; they only matter through truthiness). -/
inductive JValue where
  | null : JValue
  | bool : Bool → JValue
  | num : Int → JValue
  | str : String → JValue
  | arr : List JValue → JValue
  | obj : List (String × JValue) → JValue
  deriving Repr

/-- Property access `j.f`: `some v` when `j` is an object with field `f`
(first occurrence wins), `none` ( = JS `undefined`) otherwise. -/
def jfield (j : JValue) (f : String) : Option JValue :=
  match j with
  | .obj fields =>
    match fields.find? (fun p => p.1 == f) with
    | some p => some p.2
    | none => none
  | _ => none

/-- JavaScript truthiness of a JSON value. -/
def jTruthy : JValue → Bool
  | .null => false
  | .bool b => b
  | .num n => decide (n ≠ 0)
  | .str s => decide (s ≠ "")
  | .arr _ => true
  | .obj _ => true

/-- Truthiness of a possibly-`undefined` value. -/
def oTruthy : Option JValue → Bool
  | some v => jTruthy v
  | none => false

/-- `a || d` on JavaScript values (`a` possibly `undefined`). -/
def jOrD (a : Option JValue) (d : JValue) : JValue :=
  match a with
  | some v => if jTruthy v then v else d
  | none => d

/-- `a || b || d` on JavaScript values. -/
def jOr2D (a b : Option JValue) (d : JValue) : JValue :=
  jOrD a (jOrD b d)

/-- `String(v)` coercion, as used by `new Error(v)` and template literals. -/
def jsString : JValue → String
  | .null => "null"
  | .bool true => "true"
  | .bool false => "false"
  | .num n => toString n
  | .str s => s
  | .arr _ => ""
  | .obj _ => "[object Object]"

/-- `String(v)` where `v` may be `undefined`. -/
def jsStringU : Option JValue → String
  | some v => jsString v
  | none => "undefined"

/-- `o === s` for a possibly-undefined value against a string literal
(strict equality: true only when the value is exactly that string). -/
def isStrField (o : Option JValue) (s : String) : Bool :=
  match o with
  | some (.str t) => t == s
  | _ => false

/-- `j.status === "starting" || j.status === "processing"` — the polling
loop's continuation condition. -/
def isTransient (j : JValue) : Bool :=
  isStrField (jfield j "status") "starting" || isStrField (jfield j "status") "processing"

/-- `j.status === "succeeded" || j.status === "failed"` — the polling
loop's break condition. -/
def isTerminal (j : JValue) : Bool :=
  isStrField (jfield j "status") "succeeded" || isStrField (jfield j "status") "failed"

/-- `s.includes(sub)` (JavaScript substring test). -/
def strIncludes (s sub : String) : Bool :=
  s.data.tails.any (fun t => sub.data.isPrefixOf t)

/-- The JavaScript whitespace characters relevant to `String.prototype.trim`
(ASCII range; the payloads here are ASCII). -/
def jsIsWhitespace (c : Char) : Bool :=
  c = ' ' || c = '\t' || c = '\n' || c = '\r' || c = '\x0b' || c = '\x0c'

/-- `s.trim()`. -/
def jsTrim (s : String) : String :=
  String.mk (((s.data.dropWhile jsIsWhitespace).reverse.dropWhile jsIsWhitespace).reverse)

/-- `s.startsWith(pre)`. -/
def strStartsWith (s pre : String) : Bool :=
  pre.data.isPrefixOf s.data

/-! ## Base64 (`Buffer.toString("base64")` and its inverse) -/

/-- The base64 digit for a sextet value `v < 64`. -/
def b64char (v : Nat) : Char :=
  if v < 26 then Char.ofNat (65 + v)
  else if v < 52 then Char.ofNat (97 + (v - 26))
  else if v < 62 then Char.ofNat (48 + (v - 52))
  else if v = 62 then '+'
  else '/'

/-- The sextet value of a base64 digit (64 for a non-digit). -/
def b64val (c : Char) : Nat :=
  if 65 ≤ c.toNat ∧ c.toNat ≤ 90 then c.toNat - 65
  else if 97 ≤ c.toNat ∧ c.toNat ≤ 122 then c.toNat - 97 + 26
  else if 48 ≤ c.toNat ∧ c.toNat ≤ 57 then c.toNat - 48 + 52
  else if c = '+' then 62
  else if c = '/' then 63
  else 64

/-- Standard base64 encoding of a byte list (with `=` padding), as produced
by Node's `Buffer.from(bytes).toString("base64")`. -/
def b64encL : List Nat → List Char
  | [] => []
  | [a] => [b64char (a / 4), b64char (a % 4 * 16), '=', '=']
  | [a, b] => [b64char (a / 4), b64char (a % 4 * 16 + b / 16), b64char (b % 16 * 4), '=']
  | a :: b :: c :: rest =>
    b64char (a / 4) :: b64char (a % 4 * 16 + b / 16) ::
      b64char (b % 16 * 4 + c / 64) :: b64char (c % 64) :: b64encL rest

/-- Standard base64 decoding of a character list. -/
def b64decL : List Char → List Nat
  | a :: b :: c :: d :: rest =>
    if c = '=' then [b64val a * 4 + b64val b / 16]
    else if d = '=' then
      [b64val a * 4 + b64val b / 16, b64val b % 16 * 16 + b64val c / 4]
    else
      (b64val a * 4 + b64val b / 16) :: (b64val b % 16 * 16 + b64val c / 4) ::
        (b64val c % 4 * 64 + b64val d) :: b64decL rest
  | _ => []

/-- `Buffer.from(bytes).toString("base64")`. -/
def b64encode (bs : List Nat) : String := String.mk (b64encL bs)

/-- Base64 decoding of a string back to bytes. -/
def b64decode (s : String) : List Nat := b64decL s.data

theorem b64val_b64char {v : Nat} (h : v < 64) : b64val (b64char v) = v := by
  revert h
  revert v
  decide

theorem b64char_ne_eq {v : Nat} (h : v < 64) : b64char v ≠ '=' := by
  revert h
  revert v
  decide

theorem b64char_ne_colon {v : Nat} (h : v < 64) : b64char v ≠ ':' := by
  revert h
  revert v
  decide

/-- Base64 round-trip: decoding the encoding of a byte list recovers it. -/
theorem b64_roundtrip : ∀ bs : List Nat, (∀ b ∈ bs, b < 256) → b64decL (b64encL bs) = bs := by
  intro bs
  induction bs using b64encL.induct with
  | case1 =>
    intro _
    simp [b64encL, b64decL]
  | case2 a =>
    intro h
    have ha : a < 256 := h a (by simp)
    simp only [b64encL, b64decL, if_true]
    have h1 : b64val (b64char (a / 4)) = a / 4 := b64val_b64char (by omega)
    have h2 : b64val (b64char (a % 4 * 16)) = a % 4 * 16 := b64val_b64char (by omega)
    rw [h1, h2]
    simp only [List.cons.injEq, and_true]
    omega
  | case3 a b =>
    intro h
    have ha : a < 256 := h a (by simp)
    have hb : b < 256 := h b (by simp)
    simp only [b64encL, b64decL]
    rw [if_neg (b64char_ne_eq (v := b % 16 * 4) (by omega))]
    simp only [if_true]
    have h1 : b64val (b64char (a / 4)) = a / 4 := b64val_b64char (by omega)
    have h2 : b64val (b64char (a % 4 * 16 + b / 16)) = a % 4 * 16 + b / 16 :=
      b64val_b64char (by omega)
    have h3 : b64val (b64char (b % 16 * 4)) = b % 16 * 4 := b64val_b64char (by omega)
    rw [h1, h2, h3]
    simp only [List.cons.injEq, and_true]
    omega
  | case4 a b c rest ih =>
    intro h
    have ha : a < 256 := h a (by simp)
    have hb : b < 256 := h b (by simp)
    have hc : c < 256 := h c (by simp)
    simp only [b64encL, b64decL]
    rw [if_neg (b64char_ne_eq (v := b % 16 * 4 + c / 64) (by omega)),
      if_neg (b64char_ne_eq (v := c % 64) (by omega))]
    have h1 : b64val (b64char (a / 4)) = a / 4 := b64val_b64char (by omega)
    have h2 : b64val (b64char (a % 4 * 16 + b / 16)) = a % 4 * 16 + b / 16 :=
      b64val_b64char (by omega)
    have h3 : b64val (b64char (b % 16 * 4 + c / 64)) = b % 16 * 4 + c / 64 :=
      b64val_b64char (by omega)
    have h4 : b64val (b64char (c % 64)) = c % 64 := b64val_b64char (by omega)
    rw [h1, h2, h3, h4, ih (fun x hx => h x (by simp [hx]))]
    simp only [List.cons.injEq, and_true]
    omega

theorem b64encL_ne_nil : ∀ {bs : List Nat}, bs ≠ [] → b64encL bs ≠ [] := by
  intro bs hbs
  match bs with
  | [] => exact absurd rfl hbs
  | [a] => simp [b64encL]
  | [a, b] => simp [b64encL]
  | a :: b :: c :: rest => simp [b64encL]

theorem b64encL_no_colon : ∀ (bs : List Nat), (∀ b ∈ bs, b < 256) →
    ∀ ch ∈ b64encL bs, ch ≠ ':' := by
  intro bs
  induction bs using b64encL.induct with
  | case1 =>
    intro _
    simp [b64encL]
  | case2 a =>
    intro h ch hch
    have ha : a < 256 := h a (by simp)
    simp only [b64encL, List.mem_cons, List.not_mem_nil, or_false] at hch
    rcases hch with h1 | h1 | h1 | h1 <;> subst h1
    · exact b64char_ne_colon (by omega)
    · exact b64char_ne_colon (by omega)
    · decide
    · decide
  | case3 a b =>
    intro h ch hch
    have ha : a < 256 := h a (by simp)
    have hb : b < 256 := h b (by simp)
    simp only [b64encL, List.mem_cons, List.not_mem_nil, or_false] at hch
    rcases hch with h1 | h1 | h1 | h1 <;> subst h1
    · exact b64char_ne_colon (by omega)
    · exact b64char_ne_colon (by omega)
    · exact b64char_ne_colon (by omega)
    · decide
  | case4 a b c rest ih =>
    intro h ch hch
    have ha : a < 256 := h a (by simp)
    have hb : b < 256 := h b (by simp)
    have hc : c < 256 := h c (by simp)
    simp only [b64encL, List.mem_cons] at hch
    rcases hch with h1 | h1 | h1 | h1 | h1
    · subst h1; exact b64char_ne_colon (by omega)
    · subst h1; exact b64char_ne_colon (by omega)
    · subst h1; exact b64char_ne_colon (by omega)
    · subst h1; exact b64char_ne_colon (by omega)
    · exact ih (fun x hx => h x (by simp [hx])) ch h1

/-! ## The data-URI prefix stripper

`imageBase64.replace(/^data:image\/\w+;base64,/, "")` — the regex anchors at
the start, requires the literal `data:image/`, one or more word characters,
then the literal `;base64,`.  Since `;` is not a word character, greedy
matching is equivalent to taking the maximal word-character run. -/

/-- Regex `\w`: `[A-Za-z0-9_]`. -/
def isWordChar (c : Char) : Bool := c.isAlpha || c.isDigit || c = '_'

/-- Drop an exact literal prefix, or fail. -/
def dropLit : List Char → List Char → Option (List Char)
  | [], l => some l
  | _ :: _, [] => none
  | p :: ps, c :: cs => if c = p then dropLit ps cs else none

/-- Drop the maximal run of word characters. -/
def dropWordRun : List Char → List Char
  | [] => []
  | c :: cs => if isWordChar c then dropWordRun cs else c :: cs

/-- Drop one-or-more word characters (regex `\w+`), or fail. -/
def dropWordPlus : List Char → Option (List Char)
  | [] => none
  | c :: cs => if isWordChar c then some (dropWordRun cs) else none

/-- `replace(/^data:image\/\w+;base64,/, "")` on a character list. -/
def stripDataUriL (l : List Char) : List Char :=
  match dropLit "data:image/".data l with
  | none => l
  | some r1 =>
    match dropWordPlus r1 with
    | none => l
    | some r2 =>
      match dropLit ";base64,".data r2 with
      | none => l
      | some r3 => r3

/-- `s.replace(/^data:image\/\w+;base64,/, "")`. -/
def stripDataUri (s : String) : String := String.mk (stripDataUriL s.data)

theorem dropLit_mem {pre l r : List Char} (h : dropLit pre l = some r) :
    ∀ p ∈ pre, p ∈ l := by
  induction pre generalizing l with
  | nil => simp
  | cons p ps ih =>
    match l with
    | [] => simp [dropLit] at h
    | c :: cs =>
      simp only [dropLit] at h
      by_cases hc : c = p
      · rw [if_pos hc] at h
        intro q hq
        simp only [List.mem_cons] at hq
        rcases hq with hq | hq
        · subst hq; simp [hc]
        · exact List.mem_cons_of_mem _ (ih h q hq)
      · rw [if_neg hc] at h
        exact absurd h (by simp)

/-- A list with no `':'` cannot match the `data:image/` prefix, so the
data-URI stripper leaves it unchanged. -/
theorem stripDataUriL_no_colon {l : List Char} (h : ':' ∉ l) :
    stripDataUriL l = l := by
  unfold stripDataUriL
  match hd : dropLit "data:image/".data l with
  | none => rfl
  | some r1 =>
    exact absurd (dropLit_mem hd ':' (by decide)) h

/-- Stripping the data-URI prefix from a pure base64 encoding is the
identity (base64 output never contains `':'`). -/
theorem stripDataUri_b64encode {bs : List Nat} (h : ∀ b ∈ bs, b < 256) :
    stripDataUri (b64encode bs) = b64encode bs := by
  unfold stripDataUri b64encode
  rw [show (String.mk (b64encL bs)).data = b64encL bs from rfl,
    stripDataUriL_no_colon (fun hc => b64encL_no_colon bs h ':' hc rfl)]

/-! ## Data model of the controller -/

/-- The account record read via `userModel.findById` (only `creditBalance`
is consumed by the controller). -/
structure Account where
  creditBalance : Int
  deriving Repr, DecidableEq

/-- `req.body`: fields may be absent (`undefined`). -/
structure Request where
  userId : Option String
  prompt : Option String
  deriving Repr, DecidableEq

/-- `hfResponse.data` for a 2xx upstream POST: with `responseType:
"arraybuffer"` the transport yields a byte buffer, but the code defends
against strings and anything else. -/
inductive RespData where
  | bin : List Nat → RespData
  | str : String → RespData
  | other : RespData
  deriving Repr, DecidableEq

/-- `error.response.data` as inspected by the outer catch block. -/
inductive ErrRespData where
  | bin : List Nat → ErrRespData
  | obj : JValue → ErrRespData
  | str : String → ErrRespData
  | other : ErrRespData
  deriving Repr

/-- A thrown JavaScript error: `new Error(msg)` (no `.response`), an axios
rejection carrying a response (HTTP status + body), or an axios network
failure without a response. -/
inductive JsError where
  | err : String → JsError
  | axiosErr : String → Nat → ErrRespData → JsError
  | axiosNoResp : String → JsError
  deriving Repr

/-- `error.message`. -/
def JsError.msg : JsError → String
  | .err m => m
  | .axiosErr m _ _ => m
  | .axiosNoResp m => m

/-- The environment supplying the results of all external effects, in the
order the controller would observe them.  `poll k` is the outcome of the
`k`-th poll GET (`k = 1, 2, ...`); `fetch url` is the secondary arraybuffer
GET used for URL outputs; `jsonParse` models `JSON.parse` (`none` =
SyntaxError); `utf8` models `Buffer.from(bytes).toString("utf-8")`. -/
structure Env where
  hfTokenVar : Option String
  huggingFaceTokenVar : Option String
  findById : String → Option Account
  utf8 : List Nat → String
  jsonParse : String → Option JValue
  post : Except JsError RespData
  poll : Nat → Except JsError JValue
  fetch : String → Except JsError (List Nat)

/-- Truthiness of a possibly-undefined string (env var, request field). -/
def strTruthy : Option String → Bool
  | some s => decide (s ≠ "")
  | none => false

/-- `const HF_TOKEN = process.env.HF_TOKEN || process.env.HUGGING_FACE_TOKEN`. -/
def resolvedToken (env : Env) : Option String :=
  if strTruthy env.hfTokenVar then env.hfTokenVar else env.huggingFaceTokenVar

/-- The JSON body written through `res`, with the HTTP status code
(`res.json` without an explicit status is 200). -/
structure HttpResponse where
  status : Nat
  success : Bool
  message : Option String
  creditBalance : Option Int
  resultImage : Option String
  deriving Repr, DecidableEq

/-- Externally observable side effects of one request: whether the upstream
POST was issued, how many poll attempts were consumed, and the balances
persisted via `user.save()` (in order). -/
structure Effects where
  upstreamCalled : Bool
  pollAttempts : Nat
  saves : List Int
  deriving Repr, DecidableEq

/-- No effects yet. -/
def noEffects : Effects := ⟨false, 0, []⟩

/-! ## The polling loop (source lines 122–158 and 310–346)

The poll URL (`jsonData.urls?.get || REPLICATE_ENDPOINT/id`) has no
observable effect in the model; the `k`-th GET is `env.poll k`.  On a
rejected GET the loop logs and continues (`// Continue polling despite
error`), still having consumed one attempt. -/

/-- `const maxAttempts = 30`. -/
def maxAttempts : Nat := 30

/-- The `while` loop body, recursing on the remaining fuel
`maxAttempts - attempts` (so `fuel > 0` is exactly the source's
`attempts < maxAttempts` guard).  Returns the final prediction value and
the number of attempts consumed. -/
def pollLoopAux (env : Env) : Nat → Nat → JValue → JValue × Nat
  | 0, attempts, finalPrediction => (finalPrediction, attempts)
  | fuel + 1, attempts, finalPrediction =>
    if isTransient finalPrediction then
      match env.poll (attempts + 1) with
      | .ok d =>
        if isTerminal d then (d, attempts + 1)
        else pollLoopAux env fuel (attempts + 1) d
      | .error _ => pollLoopAux env fuel (attempts + 1) finalPrediction
    else (finalPrediction, attempts)

/-- The `while` loop, entered with `attempts = 0` and the freshly parsed
prediction object. -/
def pollLoop (env : Env) (attempts : Nat) (finalPrediction : JValue) :
    JValue × Nat :=
  pollLoopAux env (maxAttempts - attempts) attempts finalPrediction

/-- The three prediction fields written back after polling
(`jsonData.status/output/error = finalPrediction....`) and the only ones
read afterwards. -/
structure Pred where
  status : Option JValue
  output : Option JValue
  error : Option JValue

/-- Project the merged prediction fields out of a JSON value. -/
def predOf (j : JValue) : Pred :=
  ⟨jfield j "status", jfield j "output", jfield j "error"⟩

/-- `s.split(",")` on a character list. -/
def splitCommaL : List Char → List (List Char)
  | [] => [[]]
  | c :: cs =>
    let r := splitCommaL cs
    if c = ',' then [] :: r
    else
      match r with
      | h :: t => (c :: h) :: t
      | [] => [[c]]

/-- `output.split(",")[1]` — the JS `split` then index 1 (undefined when
there is no comma). -/
def splitComma1 (s : String) : Option String :=
  ((splitCommaL s.data).map String.mk)[1]?

/-- Extraction from a resolved prediction, byte-buffer branch
(source lines 166–243).  The result is the value assigned to
`imageBase64` (possibly `undefined`), or the thrown error. -/
def extractPred1 (env : Env) (p : Pred) : Except JsError (Option JValue) :=
  if isStrField p.status "succeeded" && oTruthy p.output then
    match p.output with
    | some (JValue.arr items) =>
      -- line 169: `Array.isArray(jsonData.output) && jsonData.output[0]`
      if oTruthy items.head? then
        match items.head? with
        | some (JValue.str o) =>
          if strStartsWith o "http://" || strStartsWith o "https://" then
            match env.fetch o with
            | .ok bytes => .ok (some (JValue.str (b64encode bytes)))
            | .error e => .error e
          else if strStartsWith o "data:" then
            .ok ((splitComma1 o).map JValue.str)
          else if decide (o.length > 100) then
            .ok (some (JValue.str o))
          else
            .error (.err "Prediction succeeded but no valid image output found")
        | _ => .error (.err "Prediction succeeded but no valid image output found")
      else
        -- falsy `output[0]`: `typeof output === "string"` is false for an
        -- array, so control reaches the final `else` (line 223)
        .error (.err "Prediction succeeded but output format is unexpected")
    | some (JValue.str s) =>
      -- line 201: single string output
      if strStartsWith s "http://" || strStartsWith s "https://" then
        match env.fetch s with
        | .ok bytes => .ok (some (JValue.str (b64encode bytes)))
        | .error e => .error e
      else if strStartsWith s "data:" then
        .ok ((splitComma1 s).map JValue.str)
      else
        .ok (some (JValue.str s))
    | _ => .error (.err "Prediction succeeded but output format is unexpected")
  else if isStrField p.status "failed" then
    .error (.err (jsString (jOrD p.error (JValue.str "Image generation failed"))))
  else if isStrField p.status "processing" || isStrField p.status "starting" then
    .error (.err ("Image generation is still processing after polling. Status: "
      ++ jsStringU p.status))
  else
    .error (.err ("Unexpected prediction status: " ++ jsStringU p.status))

/-- Extraction from a resolved prediction, string branch (source lines
354–396): `output[0]` when an array, then the string must be a URL, a
data-URI or raw base64. -/
def extractPred2 (env : Env) (p : Pred) : Except JsError (Option JValue) :=
  if isStrField p.status "succeeded" && oTruthy p.output then
    let output : Option JValue :=
      match p.output with
      | some (JValue.arr items) => items.head?
      | o => o
    match output with
    | some (JValue.str o) =>
      if strStartsWith o "http://" || strStartsWith o "https://" then
        match env.fetch o with
        | .ok bytes => .ok (some (JValue.str (b64encode bytes)))
        | .error e => .error e
      else if strStartsWith o "data:" then
        .ok ((splitComma1 o).map JValue.str)
      else
        .ok (some (JValue.str o))
    | _ => .error (.err "Prediction output format is unexpected")
  else if isStrField p.status "failed" then
    .error (.err (jsString (jOrD p.error (JValue.str "Image generation failed"))))
  else if isStrField p.status "processing" || isStrField p.status "starting" then
    .error (.err ("Image generation is still processing after polling. Status: "
      ++ jsStringU p.status))
  else
    .error (.err ("Unexpected prediction status: " ++ jsStringU p.status))

/-- `jsonData.images && Array.isArray(jsonData.images) && jsonData.images[0]`:
`some v` exactly when the condition holds, with `v = images[0]`. -/
def imagesCheck (j : JValue) : Option JValue :=
  match jfield j "images" with
  | some (JValue.arr items) => if oTruthy items.head? then items.head? else none
  | _ => none

/-- `jsonData.image` truthy check (lines 261 and 412). -/
def imageCheck (j : JValue) : Option JValue :=
  match jfield j "image" with
  | some v => if jTruthy v then some v else none
  | none => none

/-- Handling of a parsed JSON value in the byte-buffer branch (source lines
104–268): prediction objects (with polling), explicit error objects,
`images`/`image` fields, otherwise fall back to treating the raw bytes as
binary image data.  Returns the `imageBase64` assignment or the thrown
error, plus the number of poll attempts consumed. -/
def handleJson1 (env : Env) (jsonData : JValue) (rawBytes : List Nat) :
    Except JsError (Option JValue) × Nat :=
  if oTruthy (jfield jsonData "id") && oTruthy (jfield jsonData "status") then
    let fin := pollLoop env 0 jsonData
    (extractPred1 env (predOf fin.1), fin.2)
  else if oTruthy (jfield jsonData "error") || oTruthy (jfield jsonData "message") then
    (.error (.err (jsString (jOr2D (jfield jsonData "error")
      (jfield jsonData "message") (JValue.str "Replicate API returned an error")))), 0)
  else
    match imagesCheck jsonData with
    | some v => (.ok (some v), 0)
    | none =>
      match imageCheck jsonData with
      | some v => (.ok (some v), 0)
      | none =>
        -- line 265: "No image found in JSON, treat as binary"
        (.ok (some (JValue.str (b64encode rawBytes))), 0)

/-- Handling of a parsed JSON value in the string branch (source lines
293–417); unlike `handleJson1` there is no binary fallback — a JSON value
with no image data throws. -/
def handleJson2 (env : Env) (jsonData : JValue) :
    Except JsError (Option JValue) × Nat :=
  if oTruthy (jfield jsonData "id") && oTruthy (jfield jsonData "status") then
    let fin := pollLoop env 0 jsonData
    (extractPred2 env (predOf fin.1), fin.2)
  else if oTruthy (jfield jsonData "error") || oTruthy (jfield jsonData "message") then
    (.error (.err (jsString (jOr2D (jfield jsonData "error")
      (jfield jsonData "message") (JValue.str "API returned an error")))), 0)
  else
    match imagesCheck jsonData with
    | some v => (.ok (some v), 0)
    | none =>
      match imageCheck jsonData with
      | some v => (.ok (some v), 0)
      | none => (.error (.err "No image data found in JSON response"), 0)

/-- The model's stand-in for the message of a `SyntaxError` thrown by
`JSON.parse` (the exact text is runtime-dependent; it never contains
`"processing"` or `"Status:"`). -/
def syntaxErrorMessage : String := "Unexpected token in JSON"

/-- The byte-buffer branch (source lines 89–287): decode as UTF-8; if the
trimmed text looks like JSON, parse and handle it inside a `try` whose
`catch (parseError)` rethrows only errors whose message contains
`"processing"` or `"Status:"` and otherwise falls back to treating the raw
bytes as a binary image; if the text does not look like JSON, the bytes are
a binary image blob. -/
def handleBytes (env : Env) (bytes : List Nat) :
    Except JsError (Option JValue) × Nat :=
  let text := env.utf8 bytes
  if strStartsWith (jsTrim text) "\x7b" || strStartsWith (jsTrim text) "[" then
    match env.jsonParse text with
    | some jsonData =>
      let r := handleJson1 env jsonData bytes
      (match r.1 with
       | .ok v => (.ok v, r.2)
       | .error e =>
         if strIncludes e.msg "processing" || strIncludes e.msg "Status:" then
           (.error e, r.2)
         else
           (.ok (some (JValue.str (b64encode bytes))), r.2))
    | none =>
      -- JSON.parse threw a SyntaxError; its message never contains
      -- "processing"/"Status:", so the catch falls back to binary
      (.ok (some (JValue.str (b64encode bytes))), 0)
  else
    -- line 269: actual binary image data
    (.ok (some (JValue.str (b64encode bytes))), 0)

/-- The string branch (source lines 289–420): parse as JSON and handle;
the `catch (parseError) { throw parseError }` rethrows everything. -/
def handleStr (env : Env) (s : String) : Except JsError (Option JValue) × Nat :=
  match env.jsonParse s with
  | some jsonData => handleJson2 env jsonData
  | none => (.error (.err syntaxErrorMessage), 0)

/-- The four top-level branches of the response-shape dispatch. -/
inductive Branch where
  | binaryBuffer : Branch
  | jsonString : Branch
  | base64String : Branch
  | lastResort : Branch
  deriving Repr, DecidableEq

/-- The `if / else if / else if / else` chain over `responseData` (source
lines 89, 289, 423, 428), with each guard written as in the source. -/
def branchOf (d : RespData) : Branch :=
  if (match d with | .bin _ => true | _ => false) then
    .binaryBuffer
  else if (match d with | .str _ => true | _ => false) then
    .jsonString
  else if (match d with | .str s => decide (s.length > 100) | _ => false) then
    .base64String
  else
    .lastResort

/-- Projections used by the dispatch (the guards guarantee the shape). -/
def binBytes : RespData → List Nat
  | .bin b => b
  | _ => []

/-- String payload of a string response. -/
def strVal : RespData → String
  | .str s => s
  | _ => ""

/-- The model's stand-in for the `TypeError` message of `Buffer.from` on a
value that is neither byte-like nor a string (the last-resort branch). -/
def bufferFromTypeError : String :=
  "The first argument must be of type string or an instance of Buffer, ArrayBuffer, or Array or an Array-like Object."

/-- Top-level response-shape dispatch producing the `imageBase64`
assignment (source lines 89–431). -/
def dispatch (env : Env) (d : RespData) : Except JsError (Option JValue) × Nat :=
  match branchOf d with
  | .binaryBuffer => handleBytes env (binBytes d)
  | .jsonString => handleStr env (strVal d)
  | .base64String =>
    -- line 423 (dead code, see `branch_base64String_unreachable`)
    (.ok (some (JValue.str (stripDataUri (strVal d)))), 0)
  | .lastResort =>
    -- line 430: `Buffer.from` on an unknown value throws a TypeError
    (.error (.err bufferFromTypeError), 0)

/-! ## The outer catch block (source lines 465–517) -/

/-- `error.message || "Image generation failed"`. -/
def defaultIfEmpty (m : String) : String :=
  if m = "" then "Image generation failed" else m

/-- `error.response?.status || 500`. -/
def catchStatus : JsError → Nat
  | .axiosErr _ st _ => if st = 0 then 500 else st
  | _ => 500

/-- The `errorMessage` value after the catch block has inspected
`error.response.data` (a JavaScript value, not necessarily a string). -/
def catchMsgVal (env : Env) (e : JsError) : JValue :=
  let em0 : JValue := .str (defaultIfEmpty e.msg)
  match e with
  | .axiosErr _ _ data =>
    match data with
    | .bin b =>
      match env.jsonParse (env.utf8 b) with
      | some j => jOr2D (jfield j "error") (jfield j "message") em0
      | none => em0
    | .obj j => jOr2D (jfield j "error") (jfield j "message") em0
    | .str s =>
      match env.jsonParse s with
      | some j => jOr2D (jfield j "error") (jfield j "message") em0
      | none => if s = "" then em0 else .str s
    | .other => em0
  | _ => em0

/-- `typeof errorMessage === "string" ? errorMessage : "Image generation failed"`. -/
def catchFinalMsg : JValue → String
  | .str s => s
  | _ => "Image generation failed"

/-- The failure response produced by the outer catch block. -/
def catchResp (env : Env) (e : JsError) : HttpResponse :=
  { status := catchStatus e
    success := false
    message := some (catchFinalMsg (catchMsgVal env e))
    creditBalance := none
    resultImage := none }

/-! ## The handler -/

/-- `imageBase64.length === 0` (undefined length comparisons are false). -/
def jsLengthIsZero : Option JValue → Bool
  | some (.str s) => decide (s.length = 0)
  | some (.arr l) => decide (l.length = 0)
  | some (.obj f) =>
    (match jfield (.obj f) "length" with
     | some (.num n) => decide (n = 0)
     | _ => false)
  | _ => false

/-- The 500 message for a missing bearer token (source line 47). -/
def configErrorMessage : String :=
  "Hugging Face API token not configured. Please check HF_TOKEN environment variable."

/-- Source lines 433–464 plus the outer catch: validate the extracted
`imageBase64`, strip any data-URI prefix, re-wrap as a PNG data URI, debit
the credit and answer.  `r` is the dispatch outcome together with the
number of poll attempts it consumed. -/
def finishRequest (env : Env) (user : Account)
    (r : Except JsError (Option JValue) × Nat) : HttpResponse × Effects :=
  match r with
  | (.error e, att) => (catchResp env e, ⟨true, att, []⟩)
  | (.ok imageBase64, att) =>
    -- line 434: `if (!imageBase64 || imageBase64.length === 0)`
    if !oTruthy imageBase64 || jsLengthIsZero imageBase64 then
      (⟨500, false, some "No image data returned from Hugging Face API.",
        none, none⟩, ⟨true, att, []⟩)
    else
      match imageBase64 with
      | some (JValue.str s) =>
        let cleanBase64 := stripDataUri s
        let resultImage := "data:image/png;base64," ++ cleanBase64
        -- line 455: `user.creditBalance = Math.max(0, user.creditBalance - 1)`
        let newBal := max 0 (user.creditBalance - 1)
        (⟨200, true, some "Image generated successfully", some newBal,
          some resultImage⟩, ⟨true, att, [newBal]⟩)
      | _ =>
        -- `imageBase64.replace` on a non-string throws a TypeError
        (catchResp env (.err "imageBase64.replace is not a function"),
          ⟨true, att, []⟩)

/-- The whole `generateImage` controller: validation, account lookup,
credit gate, token check, upstream POST, response-shape dispatch (with
polling), image-data validation, data-URI normalization, credit debit and
the success/failure response.  Returns the HTTP response and the observable
effects. -/
def generateImage (env : Env) (req : Request) : HttpResponse × Effects :=
  -- line 13: `if (!userId || !prompt)`
  if !(strTruthy req.userId && strTruthy req.prompt) then
    (⟨400, false, some "Missing userId or prompt.", none, none⟩, noEffects)
  else
    match env.findById (req.userId.getD "") with
    | none => (⟨404, false, some "User not found.", none, none⟩, noEffects)
    | some user =>
      if user.creditBalance ≤ 0 then
        (⟨403, false, some "No Credit Balance", some user.creditBalance, none⟩,
          noEffects)
      else if !strTruthy (resolvedToken env) then
        (⟨500, false, some configErrorMessage, none, none⟩, noEffects)
      else
        match env.post with
        | .error e => (catchResp env e, ⟨true, 0, []⟩)
        | .ok responseData => finishRequest env user (dispatch env responseData)

/-! ## Helper environments for concrete scenarios -/

/-- UTF-8 decoding restricted to ASCII byte lists (sufficient for the
concrete scenarios, whose payloads are ASCII JSON). -/
def asciiDecode (bs : List Nat) : String := String.mk (bs.map Char.ofNat)

/-- The ASCII bytes of a string. -/
def asciiBytes (s : String) : List Nat := s.data.map Char.toNat

/-! ## Lemmas about the polling loop -/

theorem transient_not_terminal {j : JValue} (h : isTransient j = true) :
    isTerminal j = false := by
  unfold isTransient at h
  unfold isTerminal
  cases hf : jfield j "status" with
  | none => rw [hf] at h; simp [isStrField] at h
  | some v =>
    rw [hf] at h
    cases v with
    | str t =>
      simp only [isStrField, Bool.or_eq_true, beq_iff_eq] at h
      rcases h with h | h <;> subst h <;> decide
    | null => simp [isStrField] at h
    | bool b => simp [isStrField] at h
    | num n => simp [isStrField] at h
    | arr l => simp [isStrField] at h
    | obj f => simp [isStrField] at h

/-- The polling loop consumes at most `fuel` further attempts. -/
theorem pollLoopAux_le (env : Env) :
    ∀ fuel a j, (pollLoopAux env fuel a j).2 ≤ a + fuel := by
  intro fuel
  induction fuel with
  | zero => intro a j; simp [pollLoopAux]
  | succ n ih =>
    intro a j
    simp only [pollLoopAux]
    split
    · split
      · split
        · simp
        · rename_i d heq hterm
          have := ih (a + 1) d; omega
      · have := ih (a + 1) j; omega
    · simp

/-- A poll outcome that keeps the loop going: a fresh prediction still in a
transient state, or a rejected GET (retried, but the attempt is spent). -/
def pollNonTerminal (r : Except JsError JValue) : Prop :=
  match r with
  | .ok d => isTransient d = true
  | .error _ => True

/-- If every attempt keeps the loop going, the loop spends all its fuel and
ends still transient. -/
theorem pollLoopAux_timeout (env : Env) :
    ∀ fuel a j, isTransient j = true →
    (∀ k, a < k → k ≤ a + fuel → pollNonTerminal (env.poll k)) →
    isTransient (pollLoopAux env fuel a j).1 = true ∧
    (pollLoopAux env fuel a j).2 = a + fuel := by
  intro fuel
  induction fuel with
  | zero =>
    intro a j hj _
    exact ⟨by simpa [pollLoopAux] using hj, by simp [pollLoopAux]⟩
  | succ n ih =>
    intro a j hj hp
    simp only [pollLoopAux]
    rw [if_pos hj]
    split
    · rename_i v hpoll
      have hnt := hp (a + 1) (by omega) (by omega)
      rw [hpoll] at hnt
      simp only [pollNonTerminal] at hnt
      rw [if_neg (by simp [transient_not_terminal hnt])]
      have h := ih (a + 1) v hnt (fun k h1 h2 => hp k (by omega) (by omega))
      exact ⟨h.1, by omega⟩
    · have h := ih (a + 1) j hj (fun k h1 h2 => hp k (by omega) (by omega))
      exact ⟨h.1, by omega⟩

/-- If attempt `k` returns a terminal prediction and every earlier attempt
keeps the loop going, the loop stops exactly at attempt `k` with that
prediction: attempt `k + 1` is never issued, and earlier rejected GETs
still count. -/
theorem pollLoopAux_reach (env : Env) (k : Nat) (d : JValue)
    (hpk : env.poll k = .ok d) (hd : isTerminal d = true) :
    ∀ fuel a j, a < k → k ≤ a + fuel → isTransient j = true →
    (∀ i, a < i → i < k → pollNonTerminal (env.poll i)) →
    pollLoopAux env fuel a j = (d, k) := by
  intro fuel
  induction fuel with
  | zero => intro a j h1 h2 _ _; omega
  | succ n ih =>
    intro a j h1 h2 hj hp
    simp only [pollLoopAux]
    rw [if_pos hj]
    by_cases hak : a + 1 = k
    · subst hak
      simp only [hpk]
      rw [if_pos hd]
    · have h3 : a + 1 < k := by omega
      have hnt := hp (a + 1) (by omega) h3
      split
      · rename_i v hpoll
        rw [hpoll] at hnt
        simp only [pollNonTerminal] at hnt
        rw [if_neg (by simp [transient_not_terminal hnt])]
        exact ih (a + 1) v h3 (by omega) hnt (fun i hi1 hi2 => hp i (by omega) hi2)
      · exact ih (a + 1) j h3 (by omega) hj (fun i hi1 hi2 => hp i (by omega) hi2)

/-- The polling loop, entered as the controller enters it, issues at most
30 attempts. -/
theorem pollLoop_le30 (env : Env) (j : JValue) :
    (pollLoop env 0 j).2 ≤ maxAttempts := by
  simpa [pollLoop] using pollLoopAux_le env maxAttempts 0 j

/-- A handle that never leaves a transient state exhausts all 30 attempts
and is still transient afterwards. -/
theorem pollLoop_timeout (env : Env) (j : JValue) (hj : isTransient j = true)
    (hp : ∀ k, 1 ≤ k → k ≤ maxAttempts → pollNonTerminal (env.poll k)) :
    isTransient (pollLoop env 0 j).1 = true ∧
    (pollLoop env 0 j).2 = maxAttempts := by
  have h := pollLoopAux_timeout env maxAttempts 0 j hj
    (fun k h1 h2 => hp k (by omega) (by omega))
  simpa [pollLoop] using h

/-- A handle that reaches a terminal state on attempt `k ≤ 30` stops the
loop at exactly `k` attempts with that prediction. -/
theorem pollLoop_reach (env : Env) (k : Nat) (d : JValue) (j : JValue)
    (hk1 : 1 ≤ k) (hk30 : k ≤ maxAttempts)
    (hpk : env.poll k = .ok d) (hd : isTerminal d = true)
    (hj : isTransient j = true)
    (hp : ∀ i, 1 ≤ i → i < k → pollNonTerminal (env.poll i)) :
    pollLoop env 0 j = (d, k) := by
  have h := pollLoopAux_reach env k d hpk hd maxAttempts 0 j (by omega)
    (by omega) hj (fun i h1 h2 => hp i (by omega) h2)
  simpa [pollLoop] using h

/-! ## Structural lemmas about `generateImage` -/

theorem catchResp_success (env : Env) (e : JsError) :
    (catchResp env e).success = false := rfl

theorem finishRequest_failure (env : Env) (user : Account)
    (r : Except JsError (Option JValue) × Nat) :
    (finishRequest env user r).1.success = false →
    (finishRequest env user r).2.saves = [] := by
  unfold finishRequest
  split
  · intro _; rfl
  · split
    · intro _; rfl
    · split
      · intro h; simp at h
      · intro _; rfl

theorem finishRequest_success (env : Env) (user : Account)
    (r : Except JsError (Option JValue) × Nat) :
    (finishRequest env user r).1.success = true →
    (finishRequest env user r).1.creditBalance = some (max 0 (user.creditBalance - 1)) ∧
    (finishRequest env user r).2.saves = [max 0 (user.creditBalance - 1)] := by
  unfold finishRequest
  split
  · intro h; exact absurd h (by simp [catchResp_success])
  · split
    · intro h; simp at h
    · split
      · intro _; exact ⟨rfl, rfl⟩
      · intro h; exact absurd h (by simp [catchResp_success])

/-- Every request that ends in a failure response persists nothing:
`user.save()` is on the single success path, after extraction. -/
theorem failure_no_save (env : Env) (req : Request) :
    (generateImage env req).1.success = false →
    (generateImage env req).2.saves = [] := by
  unfold generateImage
  split
  · intro _; rfl
  · split
    · intro _; rfl
    · split
      · intro _; rfl
      · split
        · intro _; rfl
        · split
          · intro _; rfl
          · exact finishRequest_failure env _ _

/-- Every success response comes from the single terminal success branch:
there is a looked-up account with positive balance, the returned balance is
the old balance minus one, and exactly that balance is persisted, once. -/
theorem success_shape (env : Env) (req : Request) :
    (generateImage env req).1.success = true →
    ∃ user : Account, env.findById (req.userId.getD "") = some user ∧
      ¬user.creditBalance ≤ 0 ∧
      (generateImage env req).1.creditBalance = some (user.creditBalance - 1) ∧
      (generateImage env req).2.saves = [user.creditBalance - 1] := by
  unfold generateImage
  split
  · intro h; simp at h
  · split
    · intro h; simp at h
    · rename_i user heq
      split
      · intro h; simp at h
      · rename_i hbal
        split
        · intro h; simp at h
        · split
          · intro h; exact absurd h (by simp [catchResp_success])
          · intro h
            obtain ⟨h1, h2⟩ := finishRequest_success env user _ h
            have hmax : max 0 (user.creditBalance - 1) = user.creditBalance - 1 := by
              omega
            rw [hmax] at h1 h2
            exact ⟨user, heq, hbal, h1, h2⟩

/-- With a valid request, an existing funded account, a present token and a
2xx upstream POST, the handler is exactly `finishRequest` of the dispatch. -/
theorem generateImage_post_ok (env : Env) (req : Request)
    (uid pr : String) (user : Account) (d : RespData)
    (hu : req.userId = some uid) (hu0 : uid ≠ "")
    (hp : req.prompt = some pr) (hp0 : pr ≠ "")
    (hf : env.findById uid = some user) (hbal : 0 < user.creditBalance)
    (htok : strTruthy (resolvedToken env) = true)
    (hpost : env.post = .ok d) :
    generateImage env req = finishRequest env user (dispatch env d) := by
  have t1 : strTruthy (some uid) = true := by simp [strTruthy, hu0]
  have t2 : strTruthy (some pr) = true := by simp [strTruthy, hp0]
  have hb : ¬user.creditBalance ≤ 0 := by omega
  unfold generateImage
  rw [hu, hp, t1, t2]
  simp [hf, htok, hpost, hb]

/-! ## Concrete environments used by witnesses and counterexamples -/

/-- A fully healthy environment whose upstream returns the raw bytes
`[1, 2, 3]` (a plain binary blob, not JSON). -/
def binEnv : Env :=
  { hfTokenVar := some "tok"
    huggingFaceTokenVar := none
    findById := fun uid => if uid = "u1" then some ⟨5⟩ else none
    utf8 := asciiDecode
    jsonParse := fun _ => none
    post := .ok (.bin [1, 2, 3])
    poll := fun _ => .error (.err "network error")
    fetch := fun _ => .error (.err "network error") }

/-- A well-formed request. -/
def reqOk : Request := ⟨some "u1", some "a cat"⟩

/-! ## Claim theorems -/

/-- C2: for every request with a non-empty prompt whose account exists with
a positive balance, a run that produces a success response returns
`creditBalance = old − 1` and persists exactly that balance exactly once. -/
theorem claim_C2_success_debits_exactly_one (env : Env) (req : Request)
    (uid p : String) (user : Account)
    (hu : req.userId = some uid) (hu0 : uid ≠ "")
    (hp : req.prompt = some p) (hp0 : p ≠ "")
    (hf : env.findById uid = some user) (hbal : 0 < user.creditBalance)
    (hs : (generateImage env req).1.success = true) :
    (generateImage env req).1.creditBalance = some (user.creditBalance - 1) ∧
    (generateImage env req).2.saves = [user.creditBalance - 1] := by
  obtain ⟨user', hf', _, h1, h2⟩ := success_shape env req hs
  rw [hu, Option.getD_some, hf] at hf'
  injection hf' with huser
  rw [← huser] at h1 h2
  exact ⟨h1, h2⟩

/-- C2 witness: in a healthy environment with balance 5 the success
response returns balance 4 and persists `[4]`. -/
theorem claim_C2_success_debits_exactly_one_witness :
    (generateImage binEnv reqOk).1.creditBalance = some ((5 : Int) - 1) ∧
    (generateImage binEnv reqOk).2.saves = [(5 : Int) - 1] :=
  claim_C2_success_debits_exactly_one binEnv reqOk "u1" "a cat" ⟨5⟩ rfl
    (by decide) rfl (by decide) (by decide) (by decide) (by decide)

/-- C3: every request that ends in a failure response leaves the ledger
untouched — nothing is ever persisted on a failure path (the debit and the
`user.save()` sit on the single terminal success path, after extraction). -/
theorem claim_C3_failure_never_persists (env : Env) (req : Request)
    (hs : (generateImage env req).1.success = false) :
    (generateImage env req).2.saves = [] :=
  failure_no_save env req hs

/-- C3 witness: a request with no prompt fails and persists nothing. -/
theorem claim_C3_failure_never_persists_witness :
    (generateImage binEnv ⟨none, none⟩).2.saves = [] :=
  claim_C3_failure_never_persists binEnv ⟨none, none⟩ (by decide)

/-- C5 counterexample: a whitespace-only prompt `" "` is NOT rejected —
the upstream call is made and the run succeeds, debiting a credit (status
200, not 400): the code only checks `!prompt`, it never trims. -/
theorem claim_C5_counterexample :
    (generateImage binEnv ⟨some "u1", some " "⟩).1.status = 200 ∧
    (generateImage binEnv ⟨some "u1", some " "⟩).2.upstreamCalled = true ∧
    (generateImage binEnv ⟨some "u1", some " "⟩).2.saves = [4] := by
  decide

/-- C5 amended: only a missing or empty-string prompt fails validation
with status 400, no upstream call and untouched balance (a whitespace-only
prompt passes the `!prompt` check and proceeds upstream). -/
theorem claim_C5_amended_empty_prompt_rejected (env : Env) (req : Request)
    (h : req.prompt = none ∨ req.prompt = some "") :
    (generateImage env req).1 =
      ⟨400, false, some "Missing userId or prompt.", none, none⟩ ∧
    (generateImage env req).2 = noEffects := by
  have hpf : strTruthy req.prompt = false := by
    rcases h with h | h <;> simp [h, strTruthy]
  unfold generateImage
  rw [hpf]
  simp

/-- C5 amended witness: a request with no prompt gets the 400 response and
no effects. -/
theorem claim_C5_amended_empty_prompt_rejected_witness :
    (generateImage binEnv ⟨some "u1", none⟩).1 =
      ⟨400, false, some "Missing userId or prompt.", none, none⟩ ∧
    (generateImage binEnv ⟨some "u1", none⟩).2 = noEffects :=
  claim_C5_amended_empty_prompt_rejected binEnv ⟨some "u1", none⟩ (Or.inl rfl)

/-- C6: an account with balance exactly 0 is always denied with status 403
reporting the current balance, before any upstream call, with nothing
persisted — whatever the upstream would do. -/
theorem claim_C6_zero_balance_denied (env : Env) (req : Request)
    (uid p : String) (user : Account)
    (hu : req.userId = some uid) (hu0 : uid ≠ "")
    (hp : req.prompt = some p) (hp0 : p ≠ "")
    (hf : env.findById uid = some user) (hbal : user.creditBalance = 0) :
    generateImage env req =
      (⟨403, false, some "No Credit Balance", some 0, none⟩, noEffects) := by
  unfold generateImage
  rw [hu, hp]
  simp only [strTruthy, Option.getD_some, hf, hbal]
  simp [hu0, hp0]

/-- C6 witness: balance 0 yields the 403 denial with no effects. -/
theorem claim_C6_zero_balance_denied_witness :
    generateImage { binEnv with findById := fun _ => some ⟨0⟩ } reqOk =
      (⟨403, false, some "No Credit Balance", some 0, none⟩, noEffects) :=
  claim_C6_zero_balance_denied { binEnv with findById := fun _ => some ⟨0⟩ }
    reqOk "u1" "a cat" ⟨0⟩ rfl (by decide) rfl (by decide) rfl rfl

/-- C9: when both token environment variables are absent, a validated
request with an existing, funded account fails with status 500 and the
configuration message, before any upstream call, with nothing persisted. -/
theorem claim_C9_missing_token_500 (env : Env) (req : Request)
    (uid p : String) (user : Account)
    (hu : req.userId = some uid) (hu0 : uid ≠ "")
    (hp : req.prompt = some p) (hp0 : p ≠ "")
    (hf : env.findById uid = some user) (hbal : 0 < user.creditBalance)
    (ht1 : env.hfTokenVar = none) (ht2 : env.huggingFaceTokenVar = none) :
    generateImage env req =
      (⟨500, false, some configErrorMessage, none, none⟩, noEffects) := by
  have hb : ¬user.creditBalance ≤ 0 := by omega
  unfold generateImage
  rw [hu, hp]
  simp only [strTruthy, Option.getD_some, hf, resolvedToken, ht1, ht2]
  simp [hu0, hp0, hb]

/-- C9 witness: with both token variables unset the handler answers 500
with the configuration message and no effects. -/
theorem claim_C9_missing_token_500_witness :
    generateImage { binEnv with hfTokenVar := none, huggingFaceTokenVar := none }
      reqOk = (⟨500, false, some configErrorMessage, none, none⟩, noEffects) :=
  claim_C9_missing_token_500
    { binEnv with hfTokenVar := none, huggingFaceTokenVar := none }
    reqOk "u1" "a cat" ⟨5⟩ rfl (by decide) rfl (by decide) (by decide)
    (by decide) rfl rfl

/-- C10: the top-level "Case 3" branch (string response longer than 100
characters treated as raw base64) is unreachable — every string response is
consumed by the preceding "Case 2" string branch — and a string response
that fails to parse as JSON always ends the request in a failure with
nothing persisted, never as accepted image data. -/
theorem claim_C10_case3_unreachable :
    (∀ d : RespData, branchOf d ≠ Branch.base64String) ∧
    (∀ (env : Env) (req : Request) (s : String),
      env.post = .ok (.str s) → env.jsonParse s = none →
      (generateImage env req).1.success = false ∧
      (generateImage env req).2.saves = []) := by
  constructor
  · intro d
    cases d <;> simp [branchOf]
  · intro env req s hpost hparse
    unfold generateImage
    split
    · exact ⟨rfl, rfl⟩
    · split
      · exact ⟨rfl, rfl⟩
      · split
        · exact ⟨rfl, rfl⟩
        · split
          · exact ⟨rfl, rfl⟩
          · split
            · exact ⟨rfl, rfl⟩
            · rename_i responseData heq
              rw [hpost] at heq
              injection heq with heq'
              rw [← heq']
              have hd : dispatch env (.str s) =
                  (.error (.err syntaxErrorMessage), 0) := by
                simp [dispatch, branchOf, handleStr, strVal, hparse]
              rw [hd]
              exact ⟨rfl, rfl⟩

/-! ## Attempt-count plumbing for C4 -/

theorem finishRequest_pollAttempts (env : Env) (user : Account)
    (r : Except JsError (Option JValue) × Nat) :
    (finishRequest env user r).2.pollAttempts = r.2 := by
  unfold finishRequest
  split
  · rfl
  · split
    · rfl
    · split
      · rfl
      · rfl

theorem handleJson1_le (env : Env) (j : JValue) (bytes : List Nat) :
    (handleJson1 env j bytes).2 ≤ maxAttempts := by
  unfold handleJson1
  split
  · exact pollLoop_le30 env j
  · split
    · simp
    · split
      · simp
      · split
        · simp
        · simp

theorem handleJson2_le (env : Env) (j : JValue) :
    (handleJson2 env j).2 ≤ maxAttempts := by
  unfold handleJson2
  split
  · exact pollLoop_le30 env j
  · split
    · simp
    · split
      · simp
      · split
        · simp
        · simp

theorem handleBytes_le (env : Env) (bytes : List Nat) :
    (handleBytes env bytes).2 ≤ maxAttempts := by
  simp only [handleBytes]
  split
  · split
    · rename_i jsonData hparse
      have h := handleJson1_le env jsonData bytes
      split
      · exact h
      · split
        · exact h
        · exact h
    · simp
  · simp

theorem handleStr_le (env : Env) (s : String) :
    (handleStr env s).2 ≤ maxAttempts := by
  unfold handleStr
  split
  · rename_i jsonData hparse
    exact handleJson2_le env jsonData
  · simp

theorem dispatch_le (env : Env) (d : RespData) :
    (dispatch env d).2 ≤ maxAttempts := by
  unfold dispatch
  split
  · exact handleBytes_le env (binBytes d)
  · exact handleStr_le env (strVal d)
  · simp
  · simp

/-- The whole handler never reports more than 30 poll attempts. -/
theorem generateImage_pollAttempts_le (env : Env) (req : Request) :
    (generateImage env req).2.pollAttempts ≤ maxAttempts := by
  unfold generateImage
  split
  · simp [noEffects]
  · split
    · simp [noEffects]
    · split
      · simp [noEffects]
      · split
        · simp [noEffects]
        · split
          · simp
          · rename_i user _ _ _ responseData heq
            rw [finishRequest_pollAttempts]
            exact dispatch_le env responseData

/-! ## Transient-status facts for C4 -/

theorem transient_status_cases {j : JValue} (h : isTransient j = true) :
    jfield j "status" = some (.str "starting") ∨
    jfield j "status" = some (.str "processing") := by
  unfold isTransient isStrField at h
  cases hf : jfield j "status" with
  | none => rw [hf] at h; simp at h
  | some v =>
    rw [hf] at h
    cases v with
    | str t =>
      simp only [Bool.or_eq_true, beq_iff_eq] at h
      rcases h with h | h <;> subst h
      · exact Or.inl rfl
      · exact Or.inr rfl
    | null => simp at h
    | bool b => simp at h
    | num n => simp at h
    | arr l => simp at h
    | obj f => simp at h

theorem transient_oTruthy_status {j : JValue} (h : isTransient j = true) :
    oTruthy (jfield j "status") = true := by
  rcases transient_status_cases h with hs | hs <;>
    simp [hs, oTruthy, jTruthy]

/-- Extraction from a prediction still in a transient state `w` throws the
"still processing" error. -/
theorem extract_transient_err (env : Env) (fin : JValue) (w : String)
    (hst : jfield fin "status" = some (.str w))
    (eS : isStrField (some (JValue.str w)) "succeeded" = false)
    (eF : isStrField (some (JValue.str w)) "failed" = false)
    (eT : (isStrField (some (JValue.str w)) "processing" ||
           isStrField (some (JValue.str w)) "starting") = true) :
    extractPred1 env (predOf fin) =
      .error (.err ("Image generation is still processing after polling. Status: "
        ++ w)) := by
  unfold extractPred1 predOf
  rw [hst]
  simp [eS, eF, eT, jsStringU, jsString]

/-- A prediction handle (delivered as a byte buffer) that never leaves a
transient state makes the handler answer 500 with the "still processing"
message after exactly 30 poll attempts, persisting nothing. -/
theorem generateImage_poll_timeout (env : Env) (req : Request)
    (uid pr : String) (user : Account) (bytes : List Nat) (j : JValue)
    (hu : req.userId = some uid) (hu0 : uid ≠ "")
    (hp : req.prompt = some pr) (hp0 : pr ≠ "")
    (hf : env.findById uid = some user) (hbal : 0 < user.creditBalance)
    (htok : strTruthy (resolvedToken env) = true)
    (hpost : env.post = .ok (.bin bytes))
    (hstart : strStartsWith (jsTrim (env.utf8 bytes)) "\x7b" = true)
    (hparse : env.jsonParse (env.utf8 bytes) = some j)
    (hid : oTruthy (jfield j "id") = true)
    (htr : isTransient j = true)
    (hpoll : ∀ k, 1 ≤ k → k ≤ maxAttempts → pollNonTerminal (env.poll k)) :
    (generateImage env req).1.status = 500 ∧
    (generateImage env req).1.success = false ∧
    (generateImage env req).2.pollAttempts = maxAttempts ∧
    (generateImage env req).2.saves = [] ∧
    ((generateImage env req).1.message =
       some "Image generation is still processing after polling. Status: starting" ∨
     (generateImage env req).1.message =
       some "Image generation is still processing after polling. Status: processing") := by
  obtain ⟨hfin_tr, hfin_cnt⟩ := pollLoop_timeout env j htr hpoll
  have hjson1 : handleJson1 env j bytes =
      (extractPred1 env (predOf (pollLoop env 0 j).1), (pollLoop env 0 j).2) := by
    unfold handleJson1
    rw [hid, transient_oTruthy_status htr]
    simp
  have hdisp : dispatch env (RespData.bin bytes) = handleBytes env bytes := by
    simp [dispatch, branchOf, binBytes]
  rw [generateImage_post_ok env req uid pr user (.bin bytes) hu hu0 hp hp0 hf
    hbal htok hpost, hdisp]
  rcases transient_status_cases hfin_tr with hst | hst
  · have hext := extract_transient_err env (pollLoop env 0 j).1 "starting" hst
      (by decide) (by decide) (by decide)
    have happ : ("Image generation is still processing after polling. Status: "
        ++ "starting" : String) =
        "Image generation is still processing after polling. Status: starting" := by
      decide
    rw [happ] at hext
    have hinc : strIncludes
        "Image generation is still processing after polling. Status: starting"
        "processing" = true := by decide
    have hbytes : handleBytes env bytes =
        (.error (.err "Image generation is still processing after polling. Status: starting"),
          (pollLoop env 0 j).2) := by
      simp [handleBytes, hstart, hparse, hjson1, hext, JsError.msg, hinc]
    rw [hbytes, hfin_cnt]
    refine ⟨rfl, rfl, rfl, rfl, Or.inl ?_⟩
    show some (catchFinalMsg (catchMsgVal env (JsError.err _))) = _
    have hm : catchMsgVal env (JsError.err
        "Image generation is still processing after polling. Status: starting") =
        .str (defaultIfEmpty
          "Image generation is still processing after polling. Status: starting") := rfl
    rw [hm]
    show some (defaultIfEmpty _) = _
    have hd : defaultIfEmpty
        "Image generation is still processing after polling. Status: starting" =
        "Image generation is still processing after polling. Status: starting" := by decide
    rw [hd]
  · have hext := extract_transient_err env (pollLoop env 0 j).1 "processing" hst
      (by decide) (by decide) (by decide)
    have happ : ("Image generation is still processing after polling. Status: "
        ++ "processing" : String) =
        "Image generation is still processing after polling. Status: processing" := by
      decide
    rw [happ] at hext
    have hinc : strIncludes
        "Image generation is still processing after polling. Status: processing"
        "processing" = true := by decide
    have hbytes : handleBytes env bytes =
        (.error (.err "Image generation is still processing after polling. Status: processing"),
          (pollLoop env 0 j).2) := by
      simp [handleBytes, hstart, hparse, hjson1, hext, JsError.msg, hinc]
    rw [hbytes, hfin_cnt]
    refine ⟨rfl, rfl, rfl, rfl, Or.inr ?_⟩
    show some (catchFinalMsg (catchMsgVal env (JsError.err _))) = _
    have hm : catchMsgVal env (JsError.err
        "Image generation is still processing after polling. Status: processing") =
        .str (defaultIfEmpty
          "Image generation is still processing after polling. Status: processing") := rfl
    rw [hm]
    show some (defaultIfEmpty _) = _
    have hd : defaultIfEmpty
        "Image generation is still processing after polling. Status: processing" =
        "Image generation is still processing after polling. Status: processing" := by decide
    rw [hd]

/-- The JSON text of a prediction handle stuck in `processing`. -/
def stuckText : String := "\x7b\"id\":\"p1\",\"status\":\"processing\"\x7d"

/-- The parsed value of `stuckText`. -/
def stuckJson : JValue := .obj [("id", .str "p1"), ("status", .str "processing")]

/-- A prediction that has reached `succeeded` with a data-URI output. -/
def doneJson : JValue := .obj [("id", .str "p1"), ("status", .str "succeeded"),
  ("output", .arr [.str "data:image/png;base64,QUJD"])]

/-- An environment whose upstream returns the stuck prediction handle and
whose every poll returns it again, still `processing`. -/
def envStuck : Env := { binEnv with
  post := .ok (.bin (asciiBytes stuckText))
  jsonParse := fun s => if s = stuckText then some stuckJson else none
  poll := fun _ => .ok stuckJson }

/-- Same, but the first poll GET is rejected and the second returns a
terminal `succeeded` prediction. -/
def envReach : Env := { envStuck with
  poll := fun k => if k = 1 then .error (.err "network error") else .ok doneJson }

/-- C4: the polling loop issues at most 30 attempts; a prediction handle
whose status stays in {starting, processing} for every poll ends the
request as a 500 failure carrying the "still processing" (poll timeout)
message, with 30 attempts spent and nothing persisted; and a handle that
reaches a terminal status on attempt k stops the loop at exactly k attempts
(no attempt k + 1), with a rejected poll GET retried but still consuming
one of the bounded attempts. -/
theorem claim_C4_polling_bounded :
    (∀ (env : Env) (req : Request),
      (generateImage env req).2.pollAttempts ≤ maxAttempts) ∧
    (∀ (env : Env) (req : Request) (uid pr : String) (user : Account)
       (bytes : List Nat) (j : JValue),
      req.userId = some uid → uid ≠ "" → req.prompt = some pr → pr ≠ "" →
      env.findById uid = some user → 0 < user.creditBalance →
      strTruthy (resolvedToken env) = true →
      env.post = .ok (.bin bytes) →
      strStartsWith (jsTrim (env.utf8 bytes)) "\x7b" = true →
      env.jsonParse (env.utf8 bytes) = some j →
      oTruthy (jfield j "id") = true →
      isTransient j = true →
      (∀ k, 1 ≤ k → k ≤ maxAttempts → pollNonTerminal (env.poll k)) →
      (generateImage env req).1.status = 500 ∧
      (generateImage env req).1.success = false ∧
      (generateImage env req).2.pollAttempts = maxAttempts ∧
      (generateImage env req).2.saves = [] ∧
      ((generateImage env req).1.message =
         some "Image generation is still processing after polling. Status: starting" ∨
       (generateImage env req).1.message =
         some "Image generation is still processing after polling. Status: processing")) ∧
    (∀ (env : Env) (k : Nat) (d j : JValue),
      1 ≤ k → k ≤ maxAttempts →
      env.poll k = .ok d → isTerminal d = true → isTransient j = true →
      (∀ i, 1 ≤ i → i < k → pollNonTerminal (env.poll i)) →
      pollLoop env 0 j = (d, k)) :=
  ⟨generateImage_pollAttempts_le,
   fun env req uid pr user bytes j hu hu0 hp hp0 hf hbal htok hpost hstart
       hparse hid htr hpoll =>
     generateImage_poll_timeout env req uid pr user bytes j hu hu0 hp hp0 hf
       hbal htok hpost hstart hparse hid htr hpoll,
   fun env k d j hk1 hk30 hpk hd hj hp =>
     pollLoop_reach env k d j hk1 hk30 hpk hd hj hp⟩

/-- C4 witness: the bound holds in the healthy environment; the stuck
handle times out after 30 attempts with the 500 failure; and a terminal
answer on attempt 2 (after a rejected attempt 1) stops the loop at 2. -/
theorem claim_C4_polling_bounded_witness :
    (generateImage binEnv reqOk).2.pollAttempts ≤ maxAttempts ∧
    ((generateImage envStuck reqOk).1.status = 500 ∧
     (generateImage envStuck reqOk).1.success = false ∧
     (generateImage envStuck reqOk).2.pollAttempts = maxAttempts ∧
     (generateImage envStuck reqOk).2.saves = [] ∧
     ((generateImage envStuck reqOk).1.message =
        some "Image generation is still processing after polling. Status: starting" ∨
      (generateImage envStuck reqOk).1.message =
        some "Image generation is still processing after polling. Status: processing")) ∧
    pollLoop envReach 0 stuckJson = (doneJson, 2) :=
  ⟨claim_C4_polling_bounded.1 binEnv reqOk,
   claim_C4_polling_bounded.2.1 envStuck reqOk "u1" "a cat" ⟨5⟩
     (asciiBytes stuckText) stuckJson rfl (by decide) rfl (by decide)
     (by decide) (by decide) (by decide) rfl (by decide) rfl (by decide)
     (by decide) (fun k h1 h2 => (by decide : isTransient stuckJson = true)),
   claim_C4_polling_bounded.2.2 envReach 2 doneJson stuckJson (by decide)
     (by decide) rfl (by decide) (by decide)
     (fun i h1 h2 => by
       have hi : i = 1 := by omega
       subst hi
       exact trivial)⟩

theorem b64encode_ne_empty {bs : List Nat} (h : bs ≠ []) : b64encode bs ≠ "" := by
  unfold b64encode
  intro hc
  exact b64encL_ne_nil h (congrArg String.data hc)

theorem b64encode_length_ne_zero {bs : List Nat} (h : bs ≠ []) :
    (b64encode bs).length ≠ 0 := by
  intro hc
  apply b64encL_ne_nil h
  exact List.length_eq_zero.mp hc

/-- C7: a binary-blob upstream response of nonempty bytes (whose text does
not look like JSON) produces a success whose data-URI payload is exactly
the base64 encoding of the bytes, and decoding that payload is
byte-identical to the original bytes. -/
theorem claim_C7_binary_roundtrip (env : Env) (req : Request)
    (uid pr : String) (user : Account) (bytes : List Nat)
    (hu : req.userId = some uid) (hu0 : uid ≠ "")
    (hp : req.prompt = some pr) (hp0 : pr ≠ "")
    (hf : env.findById uid = some user) (hbal : 0 < user.creditBalance)
    (htok : strTruthy (resolvedToken env) = true)
    (hpost : env.post = .ok (.bin bytes))
    (hnj1 : strStartsWith (jsTrim (env.utf8 bytes)) "\x7b" = false)
    (hnj2 : strStartsWith (jsTrim (env.utf8 bytes)) "[" = false)
    (hne : bytes ≠ []) (hrange : ∀ b ∈ bytes, b < 256) :
    (generateImage env req).1.success = true ∧
    (generateImage env req).1.resultImage =
      some ("data:image/png;base64," ++ b64encode bytes) ∧
    b64decode (b64encode bytes) = bytes := by
  have hdisp : dispatch env (RespData.bin bytes) = handleBytes env bytes := by
    simp [dispatch, branchOf, binBytes]
  have hbytes : handleBytes env bytes =
      (.ok (some (.str (b64encode bytes))), 0) := by
    simp [handleBytes, hnj1, hnj2]
  have htruthy : oTruthy (some (JValue.str (b64encode bytes))) = true :=
    decide_eq_true (b64encode_ne_empty hne)
  have hlen : jsLengthIsZero (some (JValue.str (b64encode bytes))) = false :=
    decide_eq_false (b64encode_length_ne_zero hne)
  rw [generateImage_post_ok env req uid pr user (.bin bytes) hu hu0 hp hp0 hf
    hbal htok hpost, hdisp, hbytes]
  have hfin : finishRequest env user (.ok (some (.str (b64encode bytes))), 0) =
      (⟨200, true, some "Image generated successfully",
        some (max 0 (user.creditBalance - 1)),
        some ("data:image/png;base64," ++ b64encode bytes)⟩,
       ⟨true, 0, [max 0 (user.creditBalance - 1)]⟩) := by
    unfold finishRequest
    simp [htruthy, hlen, stripDataUri_b64encode hrange]
  rw [hfin]
  exact ⟨rfl, rfl, b64_roundtrip bytes hrange⟩

/-- C7 witness: the three-byte blob `[1, 2, 3]` round-trips. -/
theorem claim_C7_binary_roundtrip_witness :
    (generateImage binEnv reqOk).1.success = true ∧
    (generateImage binEnv reqOk).1.resultImage =
      some ("data:image/png;base64," ++ b64encode [1, 2, 3]) ∧
    b64decode (b64encode [1, 2, 3]) = [1, 2, 3] :=
  claim_C7_binary_roundtrip binEnv reqOk "u1" "a cat" ⟨5⟩ [1, 2, 3] rfl
    (by decide) rfl (by decide) (by decide) (by decide) (by decide) rfl
    (by decide) (by decide) (by decide) (by decide)

/-- The JSON error-object reply of the C1 scenario. -/
def c1Text : String := "\x7b\"error\":\"model overloaded\"\x7d"

/-- The parsed value of `c1Text`. -/
def c1Json : JValue := .obj [("error", .str "model overloaded")]

/-- A healthy environment whose 2xx upstream reply is the byte buffer of
the JSON error object `{"error":"model overloaded"}`. -/
def envErrObj : Env := { binEnv with
  post := .ok (.bin (asciiBytes c1Text))
  jsonParse := fun s => if s = c1Text then some c1Json else none }

/-- C1 (code bug): a 2xx byte-buffer reply that is the JSON error object
`{"error":"model overloaded"}` is parsed, deliberately thrown (line 247),
but then swallowed by the branch's own `catch (parseError)` (line 274),
which converts it into a "binary image" success: the handler answers
success, base64-encodes the error JSON itself as the image, and debits one
credit — instead of the claimed failure with the upstream's message. -/
theorem claim_C1_error_object_swallowed :
    (generateImage envErrObj reqOk).1.success = true ∧
    (generateImage envErrObj reqOk).1.creditBalance = some 4 ∧
    (generateImage envErrObj reqOk).2.saves = [4] ∧
    (generateImage envErrObj reqOk).1.resultImage =
      some ("data:image/png;base64," ++ b64encode (asciiBytes c1Text)) ∧
    (generateImage envErrObj reqOk).1.message ≠ some "model overloaded" := by
  refine ⟨?_, ?_, ?_, ?_, ?_⟩ <;> decide

/-- The exact C8 scenario reply: note it has no `id` field. -/
def c8Text : String := "\x7b\"status\":\"succeeded\",\"output\":[\"data:image/png;base64,QUJD\"]\x7d"

/-- The parsed value of `c8Text`. -/
def c8Json : JValue := .obj [("status", .str "succeeded"),
  ("output", .arr [.str "data:image/png;base64,QUJD"])]

/-- A healthy environment whose upstream replies with `c8Text` as bytes. -/
def envNoId : Env := { binEnv with
  post := .ok (.bin (asciiBytes c8Text))
  jsonParse := fun s => if s = c8Text then some c8Json else none }

/-- The C8 scenario reply with a prediction `id`, as the Replicate API
actually sends it. -/
def c8bText : String :=
  "\x7b\"id\":\"p1\",\"status\":\"succeeded\",\"output\":[\"data:image/png;base64,QUJD\"]\x7d"

/-- The parsed value of `c8bText`. -/
def c8bJson : JValue := .obj [("id", .str "p1"), ("status", .str "succeeded"),
  ("output", .arr [.str "data:image/png;base64,QUJD"])]

/-- A healthy environment whose upstream replies with `c8bText` as bytes. -/
def envWithId : Env := { binEnv with
  post := .ok (.bin (asciiBytes c8bText))
  jsonParse := fun s => if s = c8bText then some c8bJson else none }

/-- C8 counterexample: the scenario object `{status:"succeeded",
output:["data:image/png;base64,QUJD"]}` has no `id`, so it never enters the
prediction branch (line 105 requires `jsonData.id && jsonData.status`); the
code falls through to "treat as binary" and the payload is the base64 of
the whole JSON text, not `QUJD`. -/
theorem claim_C8_counterexample :
    (generateImage envNoId reqOk).1.resultImage =
      some ("data:image/png;base64," ++ b64encode (asciiBytes c8Text)) ∧
    (generateImage envNoId reqOk).1.resultImage ≠
      some "data:image/png;base64,QUJD" :=
  ⟨by decide, by decide⟩

/-- C8 amended: for the prediction object carrying its `id`
(`{id:"p1",status:"succeeded",output:["data:image/png;base64,QUJD"]}`) the
handler produces a success whose payload is exactly `QUJD`, the data-URI
prefix stripped and re-wrapped as `image/png`. -/
theorem claim_C8_amended_prediction_with_id :
    (generateImage envWithId reqOk).1.success = true ∧
    (generateImage envWithId reqOk).1.resultImage =
      some "data:image/png;base64,QUJD" :=
  ⟨by decide, by decide⟩

/-- C10 witness: a concrete non-JSON string response ends in failure with
nothing persisted. -/
theorem claim_C10_case3_unreachable_witness :
    branchOf (.str "hello") ≠ Branch.base64String ∧
    (generateImage { binEnv with post := .ok (.str "hello") } reqOk).1.success = false ∧
    (generateImage { binEnv with post := .ok (.str "hello") } reqOk).2.saves = [] :=
  ⟨claim_C10_case3_unreachable.1 (.str "hello"),
   claim_C10_case3_unreachable.2 { binEnv with post := .ok (.str "hello") }
     reqOk "hello" rfl rfl⟩

end Artify
